import Mathlib

/-!
Verification of the Smart Grid Guardian classification core (src/app.py).

The embedding below models, over exact rationals, the logic functions of the
source: the field normalizer inside `check_physics_rules` (its local `get`),
the physics rule engine itself, the device registry (`KNOWN_DEVICES`,
`SAFE_RANGES`), the bounded live log, and the fetch/run cycle.  Python float
arithmetic is modelled by ℚ; Python exceptions are modelled by `Option`
(`none` = the call raises to its caller).
-/

namespace SmartGridGuardian

/-- A JSON value as delivered by the ThingSpeak feed: null, a string, or a
number (the provider serialises channel fields as strings or null). -/
inductive JVal where
  | jnull
  | jstr (s : String)
  | jnum (q : ℚ)
deriving DecidableEq

/-- Python truthiness of a JSON value held in the record: `None` is falsy,
a string is truthy iff nonempty, a number is truthy iff nonzero. -/
def JVal.truthy : JVal → Bool
  | .jnull => false
  | .jstr s => !s.isEmpty
  | .jnum q => q != 0

/-- Python equality test `value != 'null'` used by the source's `get`:
only the exact string "null" compares equal to `'null'`. -/
def JVal.isNullStr : JVal → Bool
  | .jstr s => s == "null"
  | _ => false

/-- A raw feed record: the JSON object returned by
`api.thingspeak.com/.../feeds/last.json`, as a field-name/value list. -/
def RawRecord := List (String × JVal)

/-- Numeric value of a list of decimal digit characters. -/
def digitsVal (cs : List Char) : Nat :=
  cs.foldl (fun a c => a * 10 + (c.toNat - 48)) 0

/-- Decimal body accepted by Python `float`: digits with an optional single
point, at least one digit overall (`"12"`, `"12.5"`, `".5"`, `"5."`). -/
def parseDecimal (cs : List Char) : Option ℚ :=
  let ip := cs.takeWhile Char.isDigit
  let rest := cs.dropWhile Char.isDigit
  match rest with
  | [] => if ip.isEmpty then none else some (digitsVal ip : ℚ)
  | '.' :: frac =>
    if frac.all Char.isDigit && !(ip.isEmpty && frac.isEmpty) then
      some ((digitsVal ip : ℚ) + (digitsVal frac : ℚ) / (10 ^ frac.length))
    else none
  | _ => none

/-- Python's builtin `float(s)` on a string, for plain decimal literals with
an optional sign; `none` models the `ValueError` raised on anything else. -/
def pyFloat (s : String) : Option ℚ :=
  match s.data with
  | '-' :: rest => (parseDecimal rest).map (fun q => -q)
  | '+' :: rest => parseDecimal rest
  | cs => parseDecimal cs

/-- Python's `float(v)` on a record value: numbers pass through, strings are
parsed, `float(None)` raises. -/
def pyFloatJ : JVal → Option ℚ
  | .jnull => none
  | .jstr s => pyFloat s
  | .jnum q => some q

/-- The source's `get` (line 148):
`float(data_json.get(f, 0)) if data_json.get(f) and data_json.get(f) != 'null'
else 0.0`.  `none` models an exception escaping to the caller. -/
def getField (data_json : RawRecord) (f : String) : Option ℚ :=
  match data_json.lookup f with
  | some v => if v.truthy && !v.isNullStr then pyFloatJ v else some 0
  | none => some 0

/-- A typed sample: the six channel values extracted at lines 150–151. -/
structure Reading where
  voltage : ℚ
  current : ℚ
  realPower : ℚ
  frequency : ℚ
  powerFactor : ℚ
  energy : ℚ
deriving DecidableEq

/-- The sidebar field mapping (`f_volt` … `f_egy`, lines 124–129). -/
structure FieldMap where
  volt : String
  curr : String
  pow : String
  freq : String
  pf : String
  egy : String

/-- Normalization: the six `get` calls of lines 150–151 in order; any raised
exception propagates (`none`). -/
def normalize (data_json : RawRecord) (fm : FieldMap) : Option Reading := do
  let v ← getField data_json fm.volt
  let i ← getField data_json fm.curr
  let p ← getField data_json fm.pow
  let f ← getField data_json fm.freq
  let pf ← getField data_json fm.pf
  let e ← getField data_json fm.egy
  pure ⟨v, i, p, f, pf, e⟩

/-- The device list of line 78 (the source sorts it; order is irrelevant to
membership). -/
def KNOWN_DEVICES : List String :=
  ["1 LIGHT", "2 LIGHTS", "EMPTY", "LAPTOP", "LAPTOP+PHONE",
   "LIGHT+LAPTOP", "LIGHT+LAPTOP+PHONE", "PHONE", "PHONE+LIGHT"]

/-- The registry of lines 83–93: label → (min watts, max watts). -/
def SAFE_RANGES : List (String × (ℚ × ℚ)) :=
  [("EMPTY", (0, 0)),
   ("PHONE", (5, 28)),
   ("1 LIGHT", (34, 45.5)),
   ("PHONE+LIGHT", (34, 68)),
   ("LAPTOP", (15, 47)),
   ("LAPTOP+PHONE", (27, 75)),
   ("2 LIGHTS", (75, 86)),
   ("LIGHT+LAPTOP", (50, 86)),
   ("LIGHT+LAPTOP+PHONE", (0.2, 109))]

/-- `SAFE_RANGES[label]` guarded by `label in SAFE_RANGES`. -/
def lookupRange (label : String) : Option (ℚ × ℚ) :=
  SAFE_RANGES.lookup label

/-- Round to the nearest integer, ties to even (the rounding of Python's
fixed-point float formatting). -/
def roundHalfEven (q : ℚ) : ℤ :=
  let fl := ⌊q⌋
  let fr := q - fl
  if fr < 1/2 then fl
  else if 1/2 < fr then fl + 1
  else if fl % 2 = 0 then fl else fl + 1

/-- Python's `f"{x:.1f}"`: one decimal place, round half to even. -/
def fmt1 (q : ℚ) : String :=
  let n := roundHalfEven (q * 10)
  let sign := if n < 0 then "-" else ""
  let m := n.natAbs
  sign ++ toString (m / 10) ++ "." ++ toString (m % 10)

/-- Left-pad a digit string with zeros to length `k`. -/
def padZeros (s : String) (k : Nat) : String :=
  String.mk (List.replicate (k - s.length) '0') ++ s

/-- Python's `str(x)` on the float `x` (used for `{min_w}` / `{max_w}` in the
reason f-strings): exact decimal rendering, `".0"` suffix for integers. -/
def fmtF (q : ℚ) : String :=
  let sign := if q < 0 then "-" else ""
  let a := |q|
  match (List.range 18).find? (fun k => (a * 10 ^ k).den = 1) with
  | some 0 => sign ++ toString a.num ++ ".0"
  | some k =>
    let n := (a * 10 ^ k).num.natAbs
    sign ++ toString (n / 10 ^ k) ++ "." ++ padZeros (toString (n % 10 ^ k)) k
  | none => sign ++ toString a.num ++ "/" ++ toString a.den

/-- Reason text of the bypass rule (line 168). -/
def bypassReason : String := "Current Bypass Detected (V*I >> W)"

/-- Reason text of the under-power branch (line 160). -/
def underReason (p min_w : ℚ) : String :=
  "Under-Power (Read " ++ fmt1 p ++ "W, Expected >" ++ fmtF min_w ++ "W)"

/-- Reason text of the over-power branch (line 163). -/
def overReason (p max_w : ℚ) : String :=
  "Over-Power (Read " ++ fmt1 p ++ "W, Expected <" ++ fmtF max_w ++ "W)"

/-- The range rule (lines 156–163): starting from
`(False, "Normal Usage")`, compare the real power against the safe interval
when the selected device has one. -/
def rangeRule (p : ℚ) : Option (ℚ × ℚ) → Bool × String
  | some (min_w, max_w) =>
    if p < min_w then (true, underReason p min_w)
    else if p > max_w then (true, overReason p max_w)
    else (false, "Normal Usage")
  | none => (false, "Normal Usage")

/-- The decision core of `check_physics_rules` (lines 153–168), factored over
the extracted reading and the registry lookup for the selected device: the
range rule runs first, then the apparent-power bypass rule (line 166)
overwrites both flag and reason whenever it fires. -/
def classify (r : Reading) (profile : Option (ℚ × ℚ)) : Bool × String :=
  let p := r.realPower
  let apparent_power := r.voltage * r.current
  if apparent_power - p > 50 ∧ p > 5 then (true, bypassReason)
  else rangeRule p profile

/-- `check_physics_rules(data_json)` (lines 147–170): extract the six
channels, apply the rules for the selected device; `none` models a raised
exception. -/
def check_physics_rules (data_json : RawRecord) (fm : FieldMap)
    (selected_device : String) : Option (Bool × String × Reading) := do
  let r ← normalize data_json fm
  let (is_theft, reason) := classify r (lookupRange selected_device)
  pure (is_theft, reason, r)

/-- One row of the live log (the `new_row` dict, lines 232–241): every cell
is a formatted string. -/
structure Row where
  time : String
  device : String
  volts : String
  amps : String
  watts : String
  freq : String
  pf : String
  status : String
deriving DecidableEq

/-- Python's `f"{x:.3f}"`: three decimal places, round half to even. -/
def fmt3 (q : ℚ) : String :=
  let n := roundHalfEven (q * 1000)
  let sign := if n < 0 then "-" else ""
  let m := n.natAbs
  sign ++ toString (m / 1000) ++ "." ++ padZeros (toString (m % 1000)) 3

/-- Python's `f"{x:.2f}"`: two decimal places, round half to even. -/
def fmt2 (q : ℚ) : String :=
  let n := roundHalfEven (q * 100)
  let sign := if n < 0 then "-" else ""
  let m := n.natAbs
  sign ++ toString (m / 100) ++ "." ++ padZeros (toString (m % 100)) 2

/-- Construction of `new_row` (lines 232–241); `now` stands for
`datetime.now().strftime("%H:%M:%S")`. -/
def mkRow (now selected_device : String) (r : Reading) (is_theft : Bool) :
    Row :=
  { time := now
    device := selected_device
    volts := fmt1 r.voltage
    amps := fmt3 r.current
    watts := fmt1 r.realPower
    freq := fmt1 r.frequency
    pf := fmt2 r.powerFactor
    status := if is_theft then "🚨 THEFT" else "✅ OK" }

/-- The live-log append of lines 244–247:
`pd.concat([pd.DataFrame([new_row]), live_log]).head(15)` — prepend the new
row, keep the first 15. -/
def appendLog (row : Row) (live_log : List Row) : List Row :=
  (row :: live_log).take 15

/-- Sequential appends, oldest first. -/
def appendAll (rows : List Row) (live_log : List Row) : List Row :=
  rows.foldl (fun log row => appendLog row log) live_log

/-- The HTTP response seen by `fetch_data`: `none` models a raised
`requests` exception (connection error, timeout), `some (code, body)` a
completed request. -/
def HttpResp := Option (Nat × RawRecord)

/-- `fetch_data` (lines 140–145): the body on HTTP 200, `None` on any other
status code or on an exception. -/
def fetch_data (resp : HttpResp) : Option RawRecord :=
  match resp with
  | some (status_code, body) => if status_code = 200 then some body else none
  | none => none

/-- Outcome of one poll cycle as seen by the presentation layer. -/
inductive CycleStatus where
  | updated (banner_theft : Bool) (reason : String)
  | providerUnavailable
deriving DecidableEq

/-- One iteration of the running branch (lines 204–296): fetch, then — only
when `raw_data` is truthy (a non-empty record) — normalize, classify, append
to the log; otherwise surface the "Connecting to Smart Meter" warning and
leave the log untouched.  The outer `none` models an exception escaping the
cycle (there is no try/except around `check_physics_rules`). -/
def runCycle (resp : HttpResp) (fm : FieldMap) (selected_device : String)
    (now : String) (live_log : List Row) : Option (List Row × CycleStatus) :=
  match fetch_data resp with
  | some raw_data =>
    if raw_data.isEmpty then
      some (live_log, .providerUnavailable)
    else
      match check_physics_rules raw_data fm selected_device with
      | some (is_theft, reason, r) =>
        some (appendLog (mkRow now selected_device r is_theft) live_log,
              .updated is_theft reason)
      | none => none
  | none => some (live_log, .providerUnavailable)

/-- A blank row, used to instantiate log statements. -/
def row0 : Row := ⟨"", "", "", "", "", "", "", ""⟩

/-- A concrete field mapping (the sidebar defaults of lines 124–129). -/
def fm0 : FieldMap := ⟨"field1", "field2", "field3", "field4", "field5", "field6"⟩

/-! ### Helper lemmas -/

/-- `appendAll` over a log within capacity is a bounded prepend: the final
log is the first 15 of the reversed insertions followed by the old log. -/
lemma appendAll_eq_take (rows : List Row) :
    ∀ log : List Row, log.length ≤ 15 →
      appendAll rows log = (rows.reverse ++ log).take 15 := by
  induction rows with
  | nil =>
    intro log h
    simp only [appendAll, List.foldl_nil, List.reverse_nil, List.nil_append]
    exact (List.take_of_length_le h).symm
  | cons r rows ih =>
    intro log h
    have h2 : (appendLog r log).length ≤ 15 := by
      simp only [appendLog, List.length_take]
      omega
    have step : appendAll (r :: rows) log = appendAll rows (appendLog r log) := rfl
    rw [step, ih _ h2]
    simp only [List.reverse_cons, List.append_assoc, List.singleton_append,
      appendLog]
    rw [List.take_append_eq_append_take, List.take_append_eq_append_take]
    congr 1
    rw [List.take_take, min_eq_left (Nat.sub_le 15 _)]

/-- When the bypass condition of line 166 holds, `classify` returns the
bypass classification whatever the profile said. -/
lemma classify_bypass_eq (r : Reading) (prof : Option (ℚ × ℚ))
    (h1 : r.voltage * r.current - r.realPower > 50) (h2 : r.realPower > 5) :
    classify r prof = (true, bypassReason) := by
  simp only [classify]
  rw [if_pos ⟨h1, h2⟩]

/-- When the bypass condition of line 166 fails, `classify` returns the
range-rule classification. -/
lemma classify_not_bypass_eq (r : Reading) (prof : Option (ℚ × ℚ))
    (h : ¬(r.voltage * r.current - r.realPower > 50 ∧ r.realPower > 5)) :
    classify r prof = rangeRule r.realPower prof := by
  simp only [classify]
  rw [if_neg h]

/-- The under-power reason text carries the `"Under-Power"` marker. -/
lemma underReason_eq_append (p mn : ℚ) :
    ∃ t, underReason p mn = "Under-Power" ++ t := by
  refine ⟨" (Read " ++ fmt1 p ++ "W, Expected >" ++ fmtF mn ++ "W)", ?_⟩
  apply String.ext
  simp only [underReason, String.data_append, List.cons_append,
    List.append_assoc, List.nil_append]

/-- The over-power reason text carries the `"Over-Power"` marker. -/
lemma overReason_eq_append (p mx : ℚ) :
    ∃ t, overReason p mx = "Over-Power" ++ t := by
  refine ⟨" (Read " ++ fmt1 p ++ "W, Expected <" ++ fmtF mx ++ "W)", ?_⟩
  apply String.ext
  simp only [overReason, String.data_append, List.cons_append,
    List.append_assoc, List.nil_append]

/-- The under-power reason text is never the bypass reason text. -/
lemma underReason_ne_bypass (p mn : ℚ) : underReason p mn ≠ bypassReason := by
  intro h
  have h' := congrArg String.data h
  simp only [underReason, bypassReason, String.data_append,
    List.cons_append] at h'
  injection h' with h1 _
  exact absurd h1 (by decide)

/-- The over-power reason text is never the bypass reason text. -/
lemma overReason_ne_bypass (p mx : ℚ) : overReason p mx ≠ bypassReason := by
  intro h
  have h' := congrArg String.data h
  simp only [overReason, bypassReason, String.data_append,
    List.cons_append] at h'
  injection h' with h1 _
  exact absurd h1 (by decide)

/-- Real power `0` never satisfies the bypass condition. -/
lemma not_bypass_of_le_five (r : Reading) (hp : r.realPower ≤ 5) :
    ¬(r.voltage * r.current - r.realPower > 50 ∧ r.realPower > 5) := by
  rintro ⟨_, h5⟩
  exact absurd h5 (not_lt.mpr hp)

/-! ### Claim theorems -/

/-- C1: whenever apparent power exceeds real power by more than 50 W and the
real power exceeds 5 W, `classify` flags theft with exactly the bypass
reason, for every reading and every profile — overwriting whatever the range
rule produced; in particular the 120 V / 1 A / 10 W reading against the PHONE
profile is flagged with the bypass reason. -/
theorem bypass_rule_overrides :
    (∀ (r : Reading) (profile : Option (ℚ × ℚ)),
      r.voltage * r.current - r.realPower > 50 → r.realPower > 5 →
      classify r profile = (true, "Current Bypass Detected (V*I >> W)")) ∧
    classify ⟨120, 1, 10, 0, 0, 0⟩ (lookupRange "PHONE") =
      (true, "Current Bypass Detected (V*I >> W)") := by
  constructor
  · intro r profile h1 h2
    exact classify_bypass_eq r profile h1 h2
  · exact classify_bypass_eq ⟨120, 1, 10, 0, 0, 0⟩ _ (by norm_num) (by norm_num)

/-- Witness for C1: a concrete reading with no profile at all is flagged by
the bypass rule alone. -/
theorem bypass_rule_overrides_witness :
    classify ⟨230, 1, 30, 0, 0, 0⟩ none =
      (true, "Current Bypass Detected (V*I >> W)") :=
  bypass_rule_overrides.1 ⟨230, 1, 30, 0, 0, 0⟩ none (by norm_num) (by norm_num)

/-- C2: with a present profile `[mn, mx]` and the bypass condition false,
real power below `mn` yields theft with an "Under-Power"-marked reason,
real power above `mx` (and not below `mn`) yields theft with an
"Over-Power"-marked reason, and real power inside the interval yields
`(false, "Normal Usage")`; with the EMPTY profile `[0,0]`, power 0 is Normal
and power 0.1 is Over-Power theft. -/
theorem range_rule_classification :
    (∀ (r : Reading) (mn mx : ℚ),
      ¬(r.voltage * r.current - r.realPower > 50 ∧ r.realPower > 5) →
      (r.realPower < mn →
        (classify r (some (mn, mx))).1 = true ∧
        ∃ t, (classify r (some (mn, mx))).2 = "Under-Power" ++ t) ∧
      (¬r.realPower < mn → r.realPower > mx →
        (classify r (some (mn, mx))).1 = true ∧
        ∃ t, (classify r (some (mn, mx))).2 = "Over-Power" ++ t) ∧
      (mn ≤ r.realPower → r.realPower ≤ mx →
        classify r (some (mn, mx)) = (false, "Normal Usage"))) ∧
    (∀ r : Reading, r.realPower = 0 →
      classify r (lookupRange "EMPTY") = (false, "Normal Usage")) ∧
    (∀ r : Reading, r.realPower = 0.1 →
      (classify r (lookupRange "EMPTY")).1 = true ∧
      ∃ t, (classify r (lookupRange "EMPTY")).2 = "Over-Power" ++ t) := by
  refine ⟨?_, ?_, ?_⟩
  · intro r mn mx hb
    rw [classify_not_bypass_eq r _ hb]
    simp only [rangeRule]
    refine ⟨?_, ?_, ?_⟩
    · intro h
      rw [if_pos h]
      exact ⟨rfl, underReason_eq_append _ _⟩
    · intro h1 h2
      rw [if_neg h1, if_pos h2]
      exact ⟨rfl, overReason_eq_append _ _⟩
    · intro h1 h2
      rw [if_neg (not_lt.mpr h1), if_neg (not_lt.mpr h2)]
  · intro r hp
    have hb := not_bypass_of_le_five r (by rw [hp]; norm_num)
    rw [show lookupRange "EMPTY" = some ((0 : ℚ), 0) from rfl,
      classify_not_bypass_eq r _ hb]
    simp only [rangeRule, hp]
    rw [if_neg (lt_irrefl 0), if_neg (lt_irrefl 0)]
  · intro r hp
    have hb := not_bypass_of_le_five r (by rw [hp]; norm_num)
    rw [show lookupRange "EMPTY" = some ((0 : ℚ), 0) from rfl,
      classify_not_bypass_eq r _ hb]
    simp only [rangeRule, hp]
    rw [if_neg (by norm_num : ¬(0.1 : ℚ) < 0), if_pos (by norm_num : (0.1 : ℚ) > 0)]
    exact ⟨rfl, overReason_eq_append _ _⟩

/-- Witness for C2: a 1 W reading against the PHONE profile `[5, 28]` is
flagged as theft with an "Under-Power"-marked reason. -/
theorem range_rule_classification_witness :
    (classify ⟨1, 1, 1, 0, 0, 0⟩ (some (5, 28))).1 = true ∧
      ∃ t, (classify ⟨1, 1, 1, 0, 0, 0⟩ (some (5, 28))).2 = "Under-Power" ++ t :=
  (range_rule_classification.1 ⟨1, 1, 1, 0, 0, 0⟩ 5 28 (by norm_num)).1
    (by norm_num)

/-- C6: when the selected label has no registry entry, `classify` starts from
`(false, "Normal Usage")` and the result is decided purely by the bypass
rule; the lookup itself never raises. -/
theorem unmapped_label_bypass_only (r : Reading) (label : String)
    (h : lookupRange label = none) :
    classify r (lookupRange label) =
      if r.voltage * r.current - r.realPower > 50 ∧ r.realPower > 5
      then (true, "Current Bypass Detected (V*I >> W)")
      else (false, "Normal Usage") := by
  rw [h]
  by_cases hb : r.voltage * r.current - r.realPower > 50 ∧ r.realPower > 5
  · rw [if_pos hb]
    exact classify_bypass_eq r none hb.1 hb.2
  · rw [if_neg hb]
    exact classify_not_bypass_eq r none hb

/-- Witness for C6: the label "FRIDGE" is unmapped and a quiet 1 W reading
under it is classified by the bypass rule alone. -/
theorem unmapped_label_bypass_only_witness :
    classify ⟨1, 1, 1, 0, 0, 0⟩ (lookupRange "FRIDGE") =
      if (1 : ℚ) * 1 - 1 > 50 ∧ (1 : ℚ) > 5
      then (true, "Current Bypass Detected (V*I >> W)")
      else (false, "Normal Usage") :=
  unmapped_label_bypass_only ⟨1, 1, 1, 0, 0, 0⟩ "FRIDGE" (by decide)

/-- C8: `classify` is deterministic — identical reading and profile inputs
produce the identical theft flag and the identical reason string. -/
theorem classify_deterministic (r₁ r₂ : Reading) (p₁ p₂ : Option (ℚ × ℚ))
    (hr : r₁ = r₂) (hp : p₁ = p₂) :
    (classify r₁ p₁).1 = (classify r₂ p₂).1 ∧
    (classify r₁ p₁).2 = (classify r₂ p₂).2 := by
  subst hr
  subst hp
  exact ⟨rfl, rfl⟩

/-- Witness for C8 at a concrete reading and profile. -/
theorem classify_deterministic_witness :
    (classify ⟨120, 1, 10, 0, 0, 0⟩ (some (5, 28))).1 =
      (classify ⟨120, 1, 10, 0, 0, 0⟩ (some (5, 28))).1 ∧
    (classify ⟨120, 1, 10, 0, 0, 0⟩ (some (5, 28))).2 =
      (classify ⟨120, 1, 10, 0, 0, 0⟩ (some (5, 28))).2 :=
  classify_deterministic ⟨120, 1, 10, 0, 0, 0⟩ ⟨120, 1, 10, 0, 0, 0⟩
    (some (5, 28)) (some (5, 28)) rfl rfl

/-- C9: the safe interval is closed — real power exactly at the minimum or
exactly at the maximum of a present profile (bypass condition false) is
classified `(false, "Normal Usage")`, because both range comparisons are
strict. -/
theorem boundary_power_normal (r : Reading) (mn mx : ℚ) (hle : mn ≤ mx)
    (hb : ¬(r.voltage * r.current - r.realPower > 50 ∧ r.realPower > 5))
    (h : r.realPower = mn ∨ r.realPower = mx) :
    classify r (some (mn, mx)) = (false, "Normal Usage") := by
  rw [classify_not_bypass_eq r _ hb]
  simp only [rangeRule]
  rcases h with h | h <;> rw [h]
  · rw [if_neg (lt_irrefl mn), if_neg (not_lt.mpr hle)]
  · rw [if_neg (not_lt.mpr hle), if_neg (lt_irrefl mx)]

/-- Witness for C9: exactly 5 W against the PHONE profile `[5, 28]` is
Normal. -/
theorem boundary_power_normal_witness :
    classify ⟨1, 1, 5, 0, 0, 0⟩ (some (5, 28)) = (false, "Normal Usage") :=
  boundary_power_normal ⟨1, 1, 5, 0, 0, 0⟩ 5 28 (by norm_num) (by norm_num)
    (Or.inl rfl)

/-- C10: the bypass reason can never be reported when real power is at most
5 W, whatever the voltage and current; and a 0 W reading is Normal under the
EMPTY profile and under any unmapped label. -/
theorem no_bypass_at_low_power :
    (∀ (r : Reading) (profile : Option (ℚ × ℚ)), r.realPower ≤ 5 →
      (classify r profile).2 ≠ "Current Bypass Detected (V*I >> W)") ∧
    (∀ r : Reading, r.realPower = 0 →
      classify r (lookupRange "EMPTY") = (false, "Normal Usage") ∧
      ∀ label : String, lookupRange label = none →
        classify r (lookupRange label) = (false, "Normal Usage")) := by
  constructor
  · intro r profile hp
    rw [classify_not_bypass_eq r profile (not_bypass_of_le_five r hp)]
    rcases profile with _ | ⟨mn, mx⟩
    · simp only [rangeRule]
      decide
    · simp only [rangeRule]
      split_ifs with h1 h2
      · exact underReason_ne_bypass _ _
      · exact overReason_ne_bypass _ _
      · decide
  · intro r hp
    have hb := not_bypass_of_le_five r (by rw [hp]; norm_num)
    constructor
    · rw [show lookupRange "EMPTY" = some ((0 : ℚ), 0) from rfl,
        classify_not_bypass_eq r _ hb]
      simp only [rangeRule, hp]
      rw [if_neg (lt_irrefl 0), if_neg (lt_irrefl 0)]
    · intro label hl
      rw [hl, classify_not_bypass_eq r none hb]
      rfl

/-- Witness for C10: a reading with huge apparent power but zero real power
is not given the bypass reason, and is Normal under the EMPTY profile. -/
theorem no_bypass_at_low_power_witness :
    (classify ⟨100, 100, 0, 0, 0, 0⟩ none).2 ≠
      "Current Bypass Detected (V*I >> W)" ∧
    classify ⟨100, 100, 0, 0, 0, 0⟩ (lookupRange "EMPTY") =
      (false, "Normal Usage") :=
  ⟨no_bypass_at_low_power.1 ⟨100, 100, 0, 0, 0, 0⟩ none (by norm_num),
   (no_bypass_at_low_power.2 ⟨100, 100, 0, 0, 0, 0⟩ rfl).1⟩

/-- C3 counterexample: the normalizer is not total — a present, truthy,
non-`'null'` but non-numeric field value makes `float(...)` raise, and the
exception escapes `check_physics_rules` (there is no try/except around it),
instead of the value defaulting to 0.0. -/
theorem normalizer_raises_counterexample :
    getField [("field1", JVal.jstr "abc")] "field1" = none ∧
    check_physics_rules [("field1", JVal.jstr "abc")] fm0 "PHONE" = none := by
  constructor <;> rfl

/-- C3 amended: the normalizer defaults to 0.0 for an absent field, a JSON
null, an empty string, or the literal string "null", and parses any other
value as a float — but a non-numeric string makes that parse raise, and the
exception propagates to the caller. -/
theorem normalizer_default_policy_amended :
    (∀ (d : RawRecord) (f : String), d.lookup f = none →
      getField d f = some 0) ∧
    (∀ (d : RawRecord) (f : String), d.lookup f = some JVal.jnull →
      getField d f = some 0) ∧
    (∀ (d : RawRecord) (f : String), d.lookup f = some (JVal.jstr "") →
      getField d f = some 0) ∧
    (∀ (d : RawRecord) (f : String), d.lookup f = some (JVal.jstr "null") →
      getField d f = some 0) ∧
    (∀ (d : RawRecord) (f s : String) (q : ℚ),
      d.lookup f = some (JVal.jstr s) → s ≠ "" → s ≠ "null" →
      pyFloat s = some q → getField d f = some q) := by
  refine ⟨?_, ?_, ?_, ?_, ?_⟩
  · intro d f h
    unfold getField
    rw [h]
  · intro d f h
    unfold getField
    rw [h]
    decide
  · intro d f h
    unfold getField
    rw [h]
    decide
  · intro d f h
    unfold getField
    rw [h]
    decide
  · intro d f s q h hs hn hq
    unfold getField
    rw [h]
    have h1 : s.isEmpty = false := by
      rw [Bool.eq_false_iff]
      intro he
      exact hs ((String.isEmpty_iff s).mp he)
    have h2 : (s == "null") = false := by
      rw [Bool.eq_false_iff]
      intro he
      exact hn (eq_of_beq he)
    simp only [JVal.truthy, JVal.isNullStr, h1, h2, Bool.not_false,
      Bool.and_true, if_pos]
    exact hq

/-- Witness for C3 amended: the empty record and a literal "null" value both
normalize to 0. -/
theorem normalizer_default_policy_amended_witness :
    getField ([] : RawRecord) "field1" = some 0 ∧
    getField [("field2", JVal.jstr "null")] "field2" = some 0 :=
  ⟨normalizer_default_policy_amended.1 [] "field1" rfl,
   normalizer_default_policy_amended.2.2.2.1 [("field2", JVal.jstr "null")]
     "field2" rfl⟩

/-- C4: the live log never exceeds 15 entries, insertion is at the front,
at capacity the oldest (tail) entry is evicted, and 20 sequential appends
into an empty log leave exactly the last 15 insertions, newest first. -/
theorem history_log_bounded :
    (∀ (row : Row) (log : List Row), (appendLog row log).length ≤ 15) ∧
    (∀ (row : Row) (log : List Row), (appendLog row log).head? = some row) ∧
    (∀ (row : Row) (log : List Row), log.length = 15 →
      appendLog row log = row :: log.dropLast) ∧
    (∀ rows : List Row, rows.length = 20 →
      appendAll rows [] = rows.reverse.take 15 ∧
      (appendAll rows []).length = 15) := by
  refine ⟨?_, ?_, ?_, ?_⟩
  · intro row log
    simp only [appendLog, List.length_take]
    omega
  · intro row log
    rfl
  · intro row log h
    show row :: log.take 14 = row :: log.dropLast
    rw [List.dropLast_eq_take, h]
  · intro rows h
    have hk := appendAll_eq_take rows [] (by simp)
    rw [List.append_nil] at hk
    refine ⟨hk, ?_⟩
    rw [hk]
    simp [List.length_take, h]

/-- Witness for C4: at-capacity eviction and the 20-append property on
concrete logs of blank rows. -/
theorem history_log_bounded_witness :
    appendLog row0 (List.replicate 15 row0) =
      row0 :: (List.replicate 15 row0).dropLast ∧
    appendAll (List.replicate 20 row0) [] =
      (List.replicate 20 row0).reverse.take 15 :=
  ⟨history_log_bounded.2.2.1 row0 (List.replicate 15 row0) (by simp),
   (history_log_bounded.2.2.2 (List.replicate 20 row0) (by simp)).1⟩

/-- C5: when the fetch raises, times out, or the response is not HTTP 200 —
or the record it returns is empty — the cycle leaves the live log unchanged,
raises nothing, skips normalization/classification/append, and surfaces only
the provider-unavailable status. -/
theorem provider_failure_empty_cycle (resp : HttpResp) (fm : FieldMap)
    (selected_device now : String) (live_log : List Row)
    (h : fetch_data resp = none ∨ fetch_data resp = some []) :
    runCycle resp fm selected_device now live_log =
      some (live_log, CycleStatus.providerUnavailable) := by
  unfold runCycle
  rcases h with h | h
  · rw [h]
  · rw [h]
    rfl

/-- Witness for C5: a raised request (no response) and a non-200 response
both leave a concrete log untouched. -/
theorem provider_failure_empty_cycle_witness :
    runCycle none fm0 "PHONE" "12:00:00" [row0] =
      some ([row0], CycleStatus.providerUnavailable) ∧
    runCycle (some (404, [("field1", JVal.jstr "7")])) fm0 "PHONE" "12:00:00"
      [] = some ([], CycleStatus.providerUnavailable) :=
  ⟨provider_failure_empty_cycle none fm0 "PHONE" "12:00:00" [row0]
     (Or.inl rfl),
   provider_failure_empty_cycle (some (404, [("field1", JVal.jstr "7")])) fm0
     "PHONE" "12:00:00" [] (Or.inl rfl)⟩

/-- C7: the registry is exactly the nine-entry table of the spec, every
interval has min ≤ max, and every selectable label has an entry. -/
theorem registry_fixed :
    lookupRange "EMPTY" = some (0, 0) ∧
    lookupRange "PHONE" = some (5, 28) ∧
    lookupRange "1 LIGHT" = some (34, 45.5) ∧
    lookupRange "PHONE+LIGHT" = some (34, 68) ∧
    lookupRange "LAPTOP" = some (15, 47) ∧
    lookupRange "LAPTOP+PHONE" = some (27, 75) ∧
    lookupRange "2 LIGHTS" = some (75, 86) ∧
    lookupRange "LIGHT+LAPTOP" = some (50, 86) ∧
    lookupRange "LIGHT+LAPTOP+PHONE" = some (0.2, 109) ∧
    SAFE_RANGES.length = 9 ∧
    (∀ e ∈ SAFE_RANGES, e.2.1 ≤ e.2.2) ∧
    (∀ label ∈ KNOWN_DEVICES, (lookupRange label).isSome = true) := by
  refine ⟨rfl, rfl, rfl, rfl, rfl, rfl, rfl, rfl, rfl, rfl, ?_, by decide⟩
  intro e he
  fin_cases he <;> norm_num

/-- Witness for C7: the selectable label "2 LIGHTS" has a registry entry. -/
theorem registry_fixed_witness : (lookupRange "2 LIGHTS").isSome = true :=
  registry_fixed.2.2.2.2.2.2.2.2.2.2.2 "2 LIGHTS" (by decide)

end SmartGridGuardian
